import Mathlib

/-!
Shallow embedding of the job-application tracker Express API from
`day17-intro-to-node-and-express-requests-and-routing/job-application-tracker-api/server.js`.

JS objects are modelled as ordered association lists over string keys, the JS
values occurring in this API as integers, strings or NaN, and each route
handler as a pure function from the module-level `jobs` array (the only
mutable state) and the request data to the new state paired with the HTTP
response. Machine details that matter are modelled explicitly: strict
equality `===` (NaN equals nothing, mixed types are unequal), the object
spread `{ ...a, ...b }`, `Array.prototype.findIndex` returning -1, indexing
out of range giving `undefined`, and the prefix-parsing `parseInt`.
-/

namespace JobTracker

/-- The JS values that occur in this API: JSON numbers (which are record ids
and similar integers here), JSON strings, and NaN as produced by a failed
`parseInt`. -/
inductive Value where
  | num (n : Int)
  | str (s : String)
  | nan
  deriving DecidableEq, Repr

/-- JS strict equality `===` on these values: numbers compare by value,
strings by content, NaN is equal to nothing (itself included), and values of
different types are never equal. -/
def strictEq : Value → Value → Bool
  | Value.num a, Value.num b => a == b
  | Value.str a, Value.str b => a == b
  | _, _ => false

/-- A JS object: ordered string-keyed bindings. -/
abbrev Obj := List (String × Value)

/-- Property access `o.k`: the first binding of key `k`; `none` models
`undefined` (JS objects keep keys unique, so the first binding is the only
one). -/
def objGet (o : Obj) (k : String) : Option Value := o.lookup k

/-- The JS object spread `{ ...a, ...b }`: the keys of `a` in their order,
each carrying the value from `b` when `b` also binds the key, followed by the
keys of `b` absent from `a`, in their order in `b`. -/
def mergeObj (a b : Obj) : Obj :=
  (a.map fun kv => (kv.1, match b.lookup kv.1 with
    | some w => w
    | none => kv.2))
  ++ b.filter fun kv => (a.lookup kv.1).isNone

/-- The test `job.id === jobId` used by the find callbacks in the handlers
for GET, PATCH and DELETE on `/jobs/:id`. -/
def idMatches (job : Obj) (jobId : Value) : Bool :=
  match objGet job "id" with
  | some v => strictEq v jobId
  | none => false

/-- `Array.prototype.findIndex`: index of the first element satisfying the
callback, or -1 when none does. -/
def findIndexJS {α : Type} (P : α → Bool) : List α → Int
  | [] => -1
  | a :: t =>
    if P a then 0
    else
      let r := findIndexJS P t
      if r = -1 then -1 else r + 1

/-- Array indexing `l[i]` with a possibly negative or out-of-range index:
`none` models `undefined`. -/
def atJS {α : Type} (l : List α) (i : Int) : Option α :=
  if 0 ≤ i then l.get? i.toNat else none

/-- Array element assignment `l[i] = x` for the indices produced by
`findIndex` (a negative index would create a plain property and leave the
elements unchanged). -/
def setJS {α : Type} (l : List α) (i : Int) (x : α) : List α :=
  if 0 ≤ i then l.set i.toNat x else l

/-- The start-index normalisation of `Array.prototype.splice`: a negative
start counts back from the end and clamps at 0; a too-large start clamps at
the length. -/
def spliceStart (len : Nat) (i : Int) : Nat :=
  if i < 0 then (max ((len : Int) + i) 0).toNat else min i.toNat len

/-- `l.splice(i, 1)`: remove one element at the normalised start index. -/
def spliceOne {α : Type} (l : List α) (i : Int) : List α :=
  l.eraseIdx (spliceStart l.length i)

/-- The whitespace characters stripped by `parseInt` before parsing (the
common ASCII ones; the handlers receive URL path segments). -/
def isJsSpace (c : Char) : Bool :=
  c == ' ' || c == '\t' || c == '\n' || c == '\r' ||
  c == Char.ofNat 11 || c == Char.ofNat 12

/-- The numeric value of a digit character, letters counting from 10, as
accepted by `parseInt` under a radix bound. -/
def digitValue (c : Char) : Option Nat :=
  if '0' ≤ c ∧ c ≤ '9' then some (c.toNat - '0'.toNat)
  else if 'a' ≤ c ∧ c ≤ 'z' then some (c.toNat - 'a'.toNat + 10)
  else if 'A' ≤ c ∧ c ≤ 'Z' then some (c.toNat - 'A'.toNat + 10)
  else none

/-- JS `parseInt`. With `radixTen = true` it is `parseInt(s, 10)` as in the
PATCH and DELETE handlers; with `radixTen = false` it is `parseInt(s)` as in
the GET handler, which additionally detects a leading `0x`/`0X` as radix 16.
It strips leading whitespace, reads an optional sign, then the longest run of
valid digits; with no digits the result is NaN. -/
def parseIntJS (s : String) (radixTen : Bool) : Value :=
  let cs := s.toList.dropWhile isJsSpace
  let signed : Int × List Char :=
    match cs with
    | '-' :: rest => (-1, rest)
    | '+' :: rest => (1, rest)
    | _ => (1, cs)
  let based : Nat × List Char :=
    if radixTen then (10, signed.2)
    else
      match signed.2 with
      | '0' :: 'x' :: rest => (16, rest)
      | '0' :: 'X' :: rest => (16, rest)
      | _ => (10, signed.2)
  let ds := based.2.takeWhile fun c =>
    match digitValue c with
    | some v => v < based.1
    | none => false
  if ds.isEmpty then Value.nan
  else
    Value.num (signed.1 *
      ds.foldl (fun acc c => acc * (based.1 : Int) + ((digitValue c).getD 0 : Nat)) 0)

/-- The body of every 404 response: `{ message: "Job not found" }`. -/
def notFoundBody : Obj := [("message", Value.str "Job not found")]

/-- The body of a successful DELETE: `{ message: "Job deleted successfully" }`. -/
def deletedBody : Obj := [("message", Value.str "Job deleted successfully")]

/-- A response body: either the serialised jobs array or a single object. -/
inductive Body where
  | jobList (l : List Obj)
  | jobObj (o : Obj)
  deriving DecidableEq, Repr

/-- An HTTP response: status code (200 by default, 201 via `status(201)`,
404 via `status(404)`) and the body passed to `res.send`. -/
structure Resp where
  status : Nat
  body : Body
  deriving DecidableEq, Repr

/-- The 404 response shared by the GET, PATCH and DELETE handlers. -/
def notFoundResp : Resp := ⟨404, Body.jobObj notFoundBody⟩

/-- `getNextIdFromCollection` from server.js: 1 for an empty collection,
otherwise `lastRecord.id + 1` with JS addition (a missing id gives NaN, a
string id concatenates). The helper is defined but never called. -/
def getNextIdFromCollection (collection : List Obj) : Value :=
  if collection.length = 0 then Value.num 1
  else
    match objGet (collection.getLastD []) "id" with
    | some (Value.num n) => Value.num (n + 1)
    | some (Value.str s) => Value.str (s ++ "1")
    | some Value.nan => Value.nan
    | none => Value.nan

/-- Handler for `GET /jobs`: `res.send(jobs)`. -/
def getJobs (jobs : List Obj) : List Obj × Resp :=
  (jobs, ⟨200, Body.jobList jobs⟩)

/-- Handler for `GET /jobs/:id` after `parseInt`: find the first job whose id
strictly equals `jobId` and send it, or send the 404 body. -/
def getJobW (jobs : List Obj) (jobId : Value) : List Obj × Resp :=
  match jobs.find? (fun job => idMatches job jobId) with
  | some job => (jobs, ⟨200, Body.jobObj job⟩)
  | none => (jobs, notFoundResp)

/-- Handler for `GET /jobs/:id`: `const jobId = parseInt(req.params.id)` (no
radix argument), then the lookup. -/
def getJob (jobs : List Obj) (idStr : String) : List Obj × Resp :=
  getJobW jobs (parseIntJS idStr false)

/-- Handler for `POST /jobs`: push the request body verbatim and send it back
with status 201. -/
def createJob (jobs : List Obj) (body : Obj) : List Obj × Resp :=
  (jobs ++ [body], ⟨201, Body.jobObj body⟩)

/-- Handler for `PATCH /jobs/:id` after `parseInt`: compute
`jobIndex = jobs.findIndex(...)`, then `updatedJob = { ...jobs[jobIndex],
...jobUpdates }` (spreading `undefined` contributes nothing), and only when
`jobIndex !== -1` write the merged record back and send it; otherwise send
the 404 body and leave the array untouched. -/
def updateJobW (jobs : List Obj) (jobId : Value) (body : Obj) : List Obj × Resp :=
  let jobIndex := findIndexJS (fun job => idMatches job jobId) jobs
  let updatedJob := mergeObj ((atJS jobs jobIndex).getD []) body
  if jobIndex ≠ -1 then
    (setJS jobs jobIndex updatedJob, ⟨200, Body.jobObj updatedJob⟩)
  else
    (jobs, notFoundResp)

/-- Handler for `PATCH /jobs/:id`: `const jobId = parseInt(req.params.id, 10)`,
then the merge. -/
def updateJob (jobs : List Obj) (idStr : String) (body : Obj) : List Obj × Resp :=
  updateJobW jobs (parseIntJS idStr true) body

/-- Handler for `DELETE /jobs/:id` after `parseInt`: find the index of the
first matching job; when it is not -1, `jobs.splice(jobIndex, 1)` and send the
confirmation, otherwise send the 404 body. -/
def deleteJobW (jobs : List Obj) (jobId : Value) : List Obj × Resp :=
  let jobIndex := findIndexJS (fun job => idMatches job jobId) jobs
  if jobIndex ≠ -1 then
    (spliceOne jobs jobIndex, ⟨200, Body.jobObj deletedBody⟩)
  else
    (jobs, notFoundResp)

/-- Handler for `DELETE /jobs/:id`: `const jobId = parseInt(req.params.id, 10)`,
then the removal. -/
def deleteJob (jobs : List Obj) (idStr : String) : List Obj × Resp :=
  deleteJobW jobs (parseIntJS idStr true)

/-! ### Helper lemmas about the embedded JS primitives -/

/-- Strict equality against NaN is always false, so a NaN `jobId` matches no
record. -/
theorem strictEq_nan (v : Value) : strictEq v Value.nan = false := by
  cases v <;> rfl

/-- A record matches a numeric `jobId` exactly when its `id` property is that
number. -/
theorem idMatches_num (job : Obj) (i : Int) :
    idMatches job (Value.num i) = true ↔ objGet job "id" = some (Value.num i) := by
  unfold idMatches
  cases h : objGet job "id" with
  | none => simp
  | some v => cases v <;> simp [strictEq]

/-- No record matches a NaN `jobId`. -/
theorem idMatches_nan (job : Obj) : idMatches job Value.nan = false := by
  unfold idMatches
  cases h : objGet job "id" with
  | none => rfl
  | some v => exact strictEq_nan v

/-- Key lookup distributes over list append, first list winning. -/
theorem lookup_append_obj (l₁ l₂ : Obj) (k : String) :
    (l₁ ++ l₂).lookup k
      = match l₁.lookup k with
        | some v => some v
        | none => l₂.lookup k := by
  induction l₁ with
  | nil => rfl
  | cons kv t ih =>
    obtain ⟨k₀, v₀⟩ := kv
    cases hk : k == k₀ <;> simp [List.lookup, hk, ih]

/-- Key lookup in the overridden copy of `a` built by `mergeObj`. -/
theorem lookup_mapMerge (b a : Obj) (k : String) :
    ((a.map fun kv => (kv.1, match b.lookup kv.1 with
        | some w => w
        | none => kv.2)).lookup k)
      = match a.lookup k, b.lookup k with
        | some _, some w => some w
        | some v, none => some v
        | none, _ => none := by
  induction a with
  | nil => cases hb : b.lookup k <;> rfl
  | cons kv t ih =>
    obtain ⟨k₀, v₀⟩ := kv
    cases hk : k == k₀ with
    | false => simpa [List.lookup, hk] using ih
    | true =>
      have hkey : k = k₀ := eq_of_beq hk
      subst hkey
      cases hb : b.lookup k <;> simp [List.lookup, hk, hb]

/-- Key lookup passes through a filter whose predicate holds on every binding
of that key. -/
theorem lookup_filter_of_true (q : String × Value → Bool) (b : Obj) (k : String)
    (hq : ∀ v, q (k, v) = true) :
    (b.filter q).lookup k = b.lookup k := by
  induction b with
  | nil => rfl
  | cons kv t ih =>
    obtain ⟨k₀, v₀⟩ := kv
    cases hk : k == k₀ with
    | true =>
      have hkey : k = k₀ := eq_of_beq hk
      subst hkey
      simp [List.filter_cons, hq v₀, List.lookup, hk]
    | false =>
      cases hkeep : q (k₀, v₀) <;> simp [List.filter_cons, hkeep, List.lookup, hk, ih]

/-- The key semantics of the spread `{ ...a, ...b }`: on every key, the value
from `b` wins when present, and the value from `a` survives otherwise. -/
theorem objGet_mergeObj (a b : Obj) (k : String) :
    objGet (mergeObj a b) k
      = match objGet b k with
        | some w => some w
        | none => objGet a k := by
  unfold objGet mergeObj
  rw [lookup_append_obj, lookup_mapMerge]
  cases ha : a.lookup k with
  | some v => cases hb : b.lookup k <;> simp
  | none =>
    have hfil := lookup_filter_of_true (fun kv => (a.lookup kv.1).isNone) b k
      (fun _ => by simp [ha])
    cases hb : b.lookup k <;> simp [hfil, hb]

/-- `findIndex` returns -1 when no element satisfies the callback. -/
theorem findIndexJS_eq_neg_one {α : Type} (P : α → Bool) (l : List α)
    (h : ∀ x ∈ l, P x = false) : findIndexJS P l = -1 := by
  induction l with
  | nil => rfl
  | cons a t ih =>
    have ha := h a (List.mem_cons_self a t)
    have ht : ∀ x ∈ t, P x = false := fun x hx => h x (List.mem_cons_of_mem a hx)
    simp [findIndexJS, ha, ih ht]

/-- `findIndex` returns the position of the first element satisfying the
callback. -/
theorem findIndexJS_eq_of_first {α : Type} (P : α → Bool) (l : List α) (p : Nat)
    (hp : p < l.length) (h1 : P (l.get ⟨p, hp⟩) = true)
    (h2 : ∀ q (hq : q < p), P (l.get ⟨q, Nat.lt_trans hq hp⟩) = false) :
    findIndexJS P l = (p : Int) := by
  induction l generalizing p with
  | nil => exact absurd hp (Nat.not_lt_zero p)
  | cons a t ih =>
    cases p with
    | zero =>
      have h1a : P a = true := h1
      simp [findIndexJS, h1a]
    | succ p₀ =>
      have h0 : P a = false := h2 0 (Nat.succ_pos p₀)
      have hp₀ : p₀ < t.length := Nat.lt_of_succ_lt_succ hp
      have h1t : P (t.get ⟨p₀, hp₀⟩) = true := h1
      have h2t : ∀ q (hq : q < p₀), P (t.get ⟨q, Nat.lt_trans hq hp₀⟩) = false :=
        fun q hq => h2 (q + 1) (Nat.succ_lt_succ hq)
      have ihp := ih p₀ hp₀ h1t h2t
      have hne : ((p₀ : Nat) : Int) ≠ -1 := by omega
      simp only [findIndexJS, h0, if_false, Bool.false_eq_true, ihp, hne, ite_false]
      omega

/-- After erasing the position of the only element satisfying the callback,
no element satisfies it. -/
theorem eraseIdx_no_match {α : Type} (P : α → Bool) (l : List α) (p : Nat)
    (h : ∀ q (hq : q < l.length), P (l.get ⟨q, hq⟩) = true → q = p) :
    ∀ x ∈ l.eraseIdx p, P x = false := by
  induction l generalizing p with
  | nil => intro x hx; simp [List.eraseIdx] at hx
  | cons a t ih =>
    cases p with
    | zero =>
      intro x hx
      rw [List.eraseIdx_cons_zero] at hx
      obtain ⟨⟨q, hq⟩, rfl⟩ := List.mem_iff_get.mp hx
      cases hP : P (t.get ⟨q, hq⟩) with
      | false => rfl
      | true =>
        have hq1 : P ((a :: t).get ⟨q + 1, Nat.succ_lt_succ hq⟩) = true := hP
        exact absurd (h (q + 1) (Nat.succ_lt_succ hq) hq1) (Nat.succ_ne_zero q)
    | succ p₀ =>
      intro x hx
      rw [List.eraseIdx_cons_succ] at hx
      rcases List.mem_cons.mp hx with rfl | hx₀
      · cases hP : P x with
        | false => rfl
        | true =>
          have h0 : P ((x :: t).get ⟨0, Nat.succ_pos t.length⟩) = true := hP
          have := h 0 (Nat.succ_pos t.length) h0
          exact absurd this.symm (Nat.succ_ne_zero p₀)
      · refine ih p₀ (fun q hq hPq => ?_) x hx₀
        have hq1 : P ((a :: t).get ⟨q + 1, Nat.succ_lt_succ hq⟩) = true := hPq
        have := h (q + 1) (Nat.succ_lt_succ hq) hq1
        omega

/-! ### Handler-level helper lemmas -/

/-- GET by id on a sequence with no matching record: 404, state untouched. -/
theorem getJobW_not_found (S : List Obj) (jobId : Value)
    (h : ∀ job ∈ S, idMatches job jobId = false) :
    getJobW S jobId = (S, notFoundResp) := by
  unfold getJobW
  have hfind : S.find? (fun job => idMatches job jobId) = none :=
    List.find?_eq_none.mpr (fun job hj => by simp [h job hj])
  rw [hfind]

/-- PATCH on a sequence with no matching record: 404, state untouched. -/
theorem updateJobW_not_found (S : List Obj) (jobId : Value) (b : Obj)
    (h : ∀ job ∈ S, idMatches job jobId = false) :
    updateJobW S jobId b = (S, notFoundResp) := by
  unfold updateJobW
  rw [findIndexJS_eq_neg_one _ S h]
  simp

/-- DELETE on a sequence with no matching record: 404, state untouched. -/
theorem deleteJobW_not_found (S : List Obj) (jobId : Value)
    (h : ∀ job ∈ S, idMatches job jobId = false) :
    deleteJobW S jobId = (S, notFoundResp) := by
  unfold deleteJobW
  rw [findIndexJS_eq_neg_one _ S h]
  simp

/-- PATCH when the first matching record sits at position `p`: the spread of
the request body over that record is written back at `p` and sent back. -/
theorem updateJobW_found (S : List Obj) (jobId : Value) (b : Obj) (p : Nat)
    (hp : p < S.length) (h1 : idMatches (S.get ⟨p, hp⟩) jobId = true)
    (h2 : ∀ q (hq : q < p), idMatches (S.get ⟨q, Nat.lt_trans hq hp⟩) jobId = false) :
    updateJobW S jobId b
      = (S.set p (mergeObj (S.get ⟨p, hp⟩) b),
         ⟨200, Body.jobObj (mergeObj (S.get ⟨p, hp⟩) b)⟩) := by
  unfold updateJobW
  rw [findIndexJS_eq_of_first _ S p hp h1 h2]
  have hne : ((p : Nat) : Int) ≠ -1 := by omega
  have h0 : (0 : Int) ≤ ((p : Nat) : Int) := by omega
  simp [atJS, setJS, h0, hne, Int.toNat_natCast, List.get?_eq_get hp,
    List.getElem?_eq_getElem hp]

/-- DELETE when the first matching record sits at position `p`: that record
is spliced out and the confirmation is sent. -/
theorem deleteJobW_found (S : List Obj) (jobId : Value) (p : Nat)
    (hp : p < S.length) (h1 : idMatches (S.get ⟨p, hp⟩) jobId = true)
    (h2 : ∀ q (hq : q < p), idMatches (S.get ⟨q, Nat.lt_trans hq hp⟩) jobId = false) :
    deleteJobW S jobId = (S.eraseIdx p, ⟨200, Body.jobObj deletedBody⟩) := by
  unfold deleteJobW
  rw [findIndexJS_eq_of_first _ S p hp h1 h2]
  have hne : ((p : Nat) : Int) ≠ -1 := by omega
  have hstart : spliceStart S.length ((p : Nat) : Int) = p := by
    unfold spliceStart
    have : ¬ (((p : Nat) : Int) < 0) := by omega
    rw [if_neg this, Int.toNat_natCast]
    omega
  simp [spliceOne, hstart, hne]

/-- The GET by id handler answers 200 or the 404 not-found response. -/
theorem getJobW_status (S : List Obj) (jobId : Value) :
    (getJobW S jobId).2.status = 200 ∨ (getJobW S jobId).2 = notFoundResp := by
  unfold getJobW
  cases S.find? (fun job => idMatches job jobId) <;> simp

/-- The PATCH handler answers 200 or the 404 not-found response. -/
theorem updateJobW_status (S : List Obj) (jobId : Value) (b : Obj) :
    (updateJobW S jobId b).2.status = 200 ∨ (updateJobW S jobId b).2 = notFoundResp := by
  unfold updateJobW
  by_cases h : findIndexJS (fun job => idMatches job jobId) S = -1 <;> simp [h]

/-- The DELETE handler answers 200 or the 404 not-found response. -/
theorem deleteJobW_status (S : List Obj) (jobId : Value) :
    (deleteJobW S jobId).2.status = 200 ∨ (deleteJobW S jobId).2 = notFoundResp := by
  unfold deleteJobW
  by_cases h : findIndexJS (fun job => idMatches job jobId) S = -1 <;> simp [h]

/-! ### Claim theorems -/

/-- C1: for every registry sequence and every integer id matching no stored
record, GET by id, PATCH (with any body) and DELETE each leave the sequence
untouched and answer 404 with the payload `message: Job not found`. -/
theorem get_update_delete_notFound (S : List Obj) (i : Int) (b : Obj)
    (h : ∀ job ∈ S, objGet job "id" ≠ some (Value.num i)) :
    getJobW S (Value.num i)
      = (S, ⟨404, Body.jobObj [("message", Value.str "Job not found")]⟩)
    ∧ updateJobW S (Value.num i) b
      = (S, ⟨404, Body.jobObj [("message", Value.str "Job not found")]⟩)
    ∧ deleteJobW S (Value.num i)
      = (S, ⟨404, Body.jobObj [("message", Value.str "Job not found")]⟩) := by
  have hm : ∀ job ∈ S, idMatches job (Value.num i) = false := by
    intro job hj
    cases hIdM : idMatches job (Value.num i) with
    | false => rfl
    | true => exact absurd ((idMatches_num job i).mp hIdM) (h job hj)
  exact ⟨getJobW_not_found S _ hm, updateJobW_not_found S _ b hm,
    deleteJobW_not_found S _ hm⟩

/-- C1 witness: a concrete registry holding only id 1, queried at id 2. -/
theorem get_update_delete_notFound_witness :
    (∀ job ∈ [[("id", Value.num 1)]], objGet job "id" ≠ some (Value.num 2))
    ∧ getJobW [[("id", Value.num 1)]] (Value.num 2)
      = ([[("id", Value.num 1)]],
         ⟨404, Body.jobObj [("message", Value.str "Job not found")]⟩)
    ∧ updateJobW [[("id", Value.num 1)]] (Value.num 2) [("title", Value.str "A")]
      = ([[("id", Value.num 1)]],
         ⟨404, Body.jobObj [("message", Value.str "Job not found")]⟩)
    ∧ deleteJobW [[("id", Value.num 1)]] (Value.num 2)
      = ([[("id", Value.num 1)]],
         ⟨404, Body.jobObj [("message", Value.str "Job not found")]⟩) := by
  have h : ∀ job ∈ [[("id", Value.num 1)]], objGet job "id" ≠ some (Value.num 2) := by
    decide
  have hc := get_update_delete_notFound [[("id", Value.num 1)]] 2
    [("title", Value.str "A")] h
  exact ⟨h, hc.1, hc.2.1, hc.2.2⟩

/-- C2 counterexample: in the registry `[{id:1,a:0}, {id:1,b:0}]` a record
with id 1 sits at position 1, yet PATCH with body `{c:2}` does not store the
merge at position 1 — it merges over and stores at position 0, the first
match. -/
theorem update_second_position_counterexample :
    updateJobW
        [[("id", Value.num 1), ("a", Value.num 0)],
         [("id", Value.num 1), ("b", Value.num 0)]]
        (Value.num 1) [("c", Value.num 2)]
      ≠ ([[("id", Value.num 1), ("a", Value.num 0)],
          mergeObj [("id", Value.num 1), ("b", Value.num 0)] [("c", Value.num 2)]],
         ⟨200, Body.jobObj
           (mergeObj [("id", Value.num 1), ("b", Value.num 0)] [("c", Value.num 2)])⟩)
    ∧ updateJobW
        [[("id", Value.num 1), ("a", Value.num 0)],
         [("id", Value.num 1), ("b", Value.num 0)]]
        (Value.num 1) [("c", Value.num 2)]
      = ([[("id", Value.num 1), ("a", Value.num 0), ("c", Value.num 2)],
          [("id", Value.num 1), ("b", Value.num 0)]],
         ⟨200, Body.jobObj
           [("id", Value.num 1), ("a", Value.num 0), ("c", Value.num 2)]⟩) := by
  decide

/-- C2 (amended): for every registry whose FIRST record with id `i` sits at
position `p`, PATCH produces the shallow merge of the body over that record
(body values win on key collisions, other keys keep their old values), stores
it back at position `p`, and returns it. -/
theorem update_merges_at_first_match (S : List Obj) (i : Int) (b : Obj) (p : Nat)
    (hp : p < S.length)
    (h1 : objGet (S.get ⟨p, hp⟩) "id" = some (Value.num i))
    (h2 : ∀ q (hq : q < p), objGet (S.get ⟨q, Nat.lt_trans hq hp⟩) "id"
      ≠ some (Value.num i)) :
    updateJobW S (Value.num i) b
      = (S.set p (mergeObj (S.get ⟨p, hp⟩) b),
         ⟨200, Body.jobObj (mergeObj (S.get ⟨p, hp⟩) b)⟩)
    ∧ ∀ k, objGet (mergeObj (S.get ⟨p, hp⟩) b) k
        = match objGet b k with
          | some w => some w
          | none => objGet (S.get ⟨p, hp⟩) k := by
  have h1m : idMatches (S.get ⟨p, hp⟩) (Value.num i) = true :=
    (idMatches_num _ i).mpr h1
  have h2m : ∀ q (hq : q < p),
      idMatches (S.get ⟨q, Nat.lt_trans hq hp⟩) (Value.num i) = false := by
    intro q hq
    cases hIdM : idMatches (S.get ⟨q, Nat.lt_trans hq hp⟩) (Value.num i) with
    | false => rfl
    | true => exact absurd ((idMatches_num _ i).mp hIdM) (h2 q hq)
  exact ⟨updateJobW_found S _ b p hp h1m h2m,
    fun k => objGet_mergeObj (S.get ⟨p, hp⟩) b k⟩

/-- C2 witness: the spec scenario — updating `{id:1,status:Applied}` with
`{status:Interviewing}` stores and returns `{id:1,status:Interviewing}`. -/
theorem update_merges_at_first_match_witness :
    (objGet [("id", Value.num 1), ("status", Value.str "Applied")] "id"
      = some (Value.num 1))
    ∧ updateJobW [[("id", Value.num 1), ("status", Value.str "Applied")]]
        (Value.num 1) [("status", Value.str "Interviewing")]
      = ([[("id", Value.num 1), ("status", Value.str "Interviewing")]],
         ⟨200, Body.jobObj [("id", Value.num 1), ("status", Value.str "Interviewing")]⟩) := by
  have hc := update_merges_at_first_match
    [[("id", Value.num 1), ("status", Value.str "Applied")]] 1
    [("status", Value.str "Interviewing")] 0 (by decide) (by decide)
    (fun q hq => absurd hq (Nat.not_lt_zero q))
  exact ⟨by decide, hc.1.trans (by decide)⟩

/-- C3 counterexample: POST of `{title:A}` on the empty registry appends the
record without any id, in particular the newly added record does not carry
id 1 as the claimed invariant requires. -/
theorem create_assigns_no_id_counterexample :
    createJob [] [("title", Value.str "A")]
      = ([[("title", Value.str "A")]], ⟨201, Body.jobObj [("title", Value.str "A")]⟩)
    ∧ objGet [("title", Value.str "A")] "id" ≠ some (Value.num 1)
    ∧ objGet [("title", Value.str "A")] "id" = none := by
  decide

/-- C3 (amended): the helper `getNextIdFromCollection` does compute last id
plus 1 (or 1 on the empty sequence), but the POST handler never calls it:
records appended by Create keep exactly the caller-supplied payload, with no
id assigned by the service. -/
theorem getNextId_unused_by_create (S : List Obj) (b : Obj) (n : Int)
    (hS : S ≠ []) (hid : objGet (S.getLastD []) "id" = some (Value.num n)) :
    getNextIdFromCollection S = Value.num (n + 1)
    ∧ getNextIdFromCollection [] = Value.num 1
    ∧ createJob S b = (S ++ [b], ⟨201, Body.jobObj b⟩) := by
  refine ⟨?_, rfl, rfl⟩
  unfold getNextIdFromCollection
  have hlen : ¬ S.length = 0 := by simpa [List.length_eq_zero] using hS
  rw [if_neg hlen, hid]

/-- C3 witness: on a registry ending in id 4 the unused helper yields 5,
while Create still appends its payload verbatim. -/
theorem getNextId_unused_by_create_witness :
    ([[("id", Value.num 4)]] ≠ ([] : List Obj))
    ∧ objGet (([[("id", Value.num 4)]] : List Obj).getLastD []) "id"
      = some (Value.num 4)
    ∧ getNextIdFromCollection [[("id", Value.num 4)]] = Value.num 5
    ∧ createJob [[("id", Value.num 4)]] [("title", Value.str "A")]
      = ([[("id", Value.num 4)], [("title", Value.str "A")]],
         ⟨201, Body.jobObj [("title", Value.str "A")]⟩) := by
  have h1 : [[("id", Value.num 4)]] ≠ ([] : List Obj) := by decide
  have h2 : objGet (([[("id", Value.num 4)]] : List Obj).getLastD []) "id"
      = some (Value.num 4) := by decide
  have hc := getNextId_unused_by_create [[("id", Value.num 4)]]
    [("title", Value.str "A")] 4 h1 h2
  exact ⟨h1, h2, hc.1, hc.2.2⟩

/-- C4 counterexample: the registry `[{id:1}, {id:1}]` contains at least one
record with id 1; DELETE of id 1 removes only the first match, and the
subsequent GET /jobs still lists a record whose id is 1. -/
theorem delete_duplicate_id_counterexample :
    deleteJobW [[("id", Value.num 1)], [("id", Value.num 1)]] (Value.num 1)
      = ([[("id", Value.num 1)]], ⟨200, Body.jobObj deletedBody⟩)
    ∧ getJobs [[("id", Value.num 1)]]
      = ([[("id", Value.num 1)]], ⟨200, Body.jobList [[("id", Value.num 1)]]⟩)
    ∧ objGet [("id", Value.num 1)] "id" = some (Value.num 1) := by
  decide

/-- C4 (amended): on every sequence whose FIRST record with id `i` sits at
position `p` — duplicate ids allowed — DELETE removes exactly that record,
reducing the length by exactly one, and answers the confirmation; a
subsequent GET /jobs returns the remaining sequence itself; and when at most
one record carries id `i`, no record of that remaining sequence has id `i`. -/
theorem delete_removes_first_match (S : List Obj) (i : Int) (p : Nat)
    (hp : p < S.length)
    (h1 : objGet (S.get ⟨p, hp⟩) "id" = some (Value.num i))
    (h2 : ∀ q (hq : q < p), objGet (S.get ⟨q, Nat.lt_trans hq hp⟩) "id"
      ≠ some (Value.num i)) :
    (deleteJobW S (Value.num i)).1 = S.eraseIdx p
    ∧ (deleteJobW S (Value.num i)).1.length = S.length - 1
    ∧ (deleteJobW S (Value.num i)).2 = ⟨200, Body.jobObj deletedBody⟩
    ∧ (getJobs (deleteJobW S (Value.num i)).1).2.body
      = Body.jobList (deleteJobW S (Value.num i)).1
    ∧ ((∀ q (hq : q < S.length),
          objGet (S.get ⟨q, hq⟩) "id" = some (Value.num i) → q = p) →
        ∀ job ∈ (deleteJobW S (Value.num i)).1, objGet job "id" ≠ some (Value.num i)) := by
  have h1m : idMatches (S.get ⟨p, hp⟩) (Value.num i) = true :=
    (idMatches_num _ i).mpr h1
  have h2m : ∀ q (hq : q < p),
      idMatches (S.get ⟨q, Nat.lt_trans hq hp⟩) (Value.num i) = false := by
    intro q hq
    cases hIdM : idMatches (S.get ⟨q, Nat.lt_trans hq hp⟩) (Value.num i) with
    | false => rfl
    | true => exact absurd ((idMatches_num _ i).mp hIdM) (h2 q hq)
  have hdel := deleteJobW_found S (Value.num i) p hp h1m h2m
  have herase : (deleteJobW S (Value.num i)).1 = S.eraseIdx p := by rw [hdel]
  refine ⟨herase, ?_, by rw [hdel], rfl, ?_⟩
  · rw [herase, List.length_eraseIdx, if_pos hp]
  · intro huniq job hj hcontra
    have hmatch : ∀ q (hq : q < S.length),
        idMatches (S.get ⟨q, hq⟩) (Value.num i) = true → q = p :=
      fun q hq hm => huniq q hq ((idMatches_num _ i).mp hm)
    have hnone := eraseIdx_no_match (fun job => idMatches job (Value.num i)) S p hmatch
    have hj' : job ∈ S.eraseIdx p := herase ▸ hj
    have hfalse : idMatches job (Value.num i) = false := hnone job hj'
    rw [(idMatches_num job i).mpr hcontra] at hfalse
    simp at hfalse

/-- C4 witness: deleting id 1 from the duplicate-id registry
`[{id:1}, {id:1}]` removes the first record only, leaving `[{id:1}]` of
length 1 with the confirmation response. -/
theorem delete_removes_first_match_witness :
    (objGet (([[("id", Value.num 1)], [("id", Value.num 1)]] : List Obj).get
        ⟨0, by decide⟩) "id" = some (Value.num 1))
    ∧ (deleteJobW [[("id", Value.num 1)], [("id", Value.num 1)]] (Value.num 1)).1
      = [[("id", Value.num 1)]]
    ∧ (deleteJobW [[("id", Value.num 1)], [("id", Value.num 1)]] (Value.num 1)).1.length = 1
    ∧ (deleteJobW [[("id", Value.num 1)], [("id", Value.num 1)]] (Value.num 1)).2
      = ⟨200, Body.jobObj deletedBody⟩ := by
  have hc := delete_removes_first_match [[("id", Value.num 1)], [("id", Value.num 1)]]
    1 0 (by decide) (by decide) (fun q hq => absurd hq (Nat.not_lt_zero q))
  exact ⟨by decide, hc.1.trans (by decide), hc.2.1.trans (by decide), hc.2.2.1⟩

/-- C5: POST appends the request body verbatim as the new last element, makes
no change to it (no id assigned), answers 201 with that body, and a
subsequent GET /jobs returns the old sequence with the body as its new last
element. -/
theorem create_appends_verbatim (S : List Obj) (b : Obj) :
    createJob S b = (S ++ [b], ⟨201, Body.jobObj b⟩)
    ∧ getJobs (createJob S b).1
      = (S ++ [b], ⟨200, Body.jobList (S ++ [b])⟩)
    ∧ (createJob S b).1.getLast? = some b
    ∧ (createJob S b).1.take S.length = S := by
  refine ⟨rfl, rfl, List.getLast?_concat S, ?_⟩
  simp [createJob]

/-- C6: a PATCH whose identifier matches no record writes nothing: the
sequence afterwards is identical to the sequence before, and the response is
the 404 not-found payload. -/
theorem update_notFound_leaves_sequence (S : List Obj) (jobId : Value) (b : Obj)
    (h : ∀ job ∈ S, idMatches job jobId = false) :
    (updateJobW S jobId b).1 = S
    ∧ (updateJobW S jobId b).2
      = ⟨404, Body.jobObj [("message", Value.str "Job not found")]⟩ := by
  have hc := updateJobW_not_found S jobId b h
  exact ⟨by rw [hc], by rw [hc]; rfl⟩

/-- C6 witness: updating id 5 in a registry holding only id 1 changes
nothing. -/
theorem update_notFound_leaves_sequence_witness :
    (∀ job ∈ [[("id", Value.num 1)]], idMatches job (Value.num 5) = false)
    ∧ (updateJobW [[("id", Value.num 1)]] (Value.num 5) [("x", Value.num 0)]).1
      = [[("id", Value.num 1)]]
    ∧ (updateJobW [[("id", Value.num 1)]] (Value.num 5) [("x", Value.num 0)]).2
      = ⟨404, Body.jobObj [("message", Value.str "Job not found")]⟩ := by
  have h : ∀ job ∈ [[("id", Value.num 1)]], idMatches job (Value.num 5) = false := by
    decide
  have hc := update_notFound_leaves_sequence [[("id", Value.num 1)]] (Value.num 5)
    [("x", Value.num 0)] h
  exact ⟨h, hc.1, hc.2⟩

/-- C7: a malformed path identifier — one that both `parseInt(s, 10)` and
`parseInt(s)` turn into NaN — matches no stored record, so GET, PATCH and
DELETE each fall through to the 404 not-found outcome with the sequence
untouched; moreover no handler ever produces an outcome beyond success or
that single not-found response. -/
theorem malformed_id_notFound (S : List Obj) (s : String) (b : Obj)
    (h10 : parseIntJS s true = Value.nan) (h1 : parseIntJS s false = Value.nan) :
    (∀ job ∈ S, idMatches job (parseIntJS s false) = false)
    ∧ getJob S s = (S, ⟨404, Body.jobObj [("message", Value.str "Job not found")]⟩)
    ∧ updateJob S s b = (S, ⟨404, Body.jobObj [("message", Value.str "Job not found")]⟩)
    ∧ deleteJob S s = (S, ⟨404, Body.jobObj [("message", Value.str "Job not found")]⟩)
    ∧ (∀ S₂ : List Obj, ∀ s₂ : String, ∀ b₂ : Obj,
        ((getJob S₂ s₂).2.status = 200 ∨ (getJob S₂ s₂).2 = notFoundResp)
        ∧ ((updateJob S₂ s₂ b₂).2.status = 200 ∨ (updateJob S₂ s₂ b₂).2 = notFoundResp)
        ∧ ((deleteJob S₂ s₂).2.status = 200 ∨ (deleteJob S₂ s₂).2 = notFoundResp)
        ∧ (createJob S₂ b₂).2.status = 201
        ∧ (getJobs S₂).2.status = 200) := by
  have hnan : ∀ job ∈ S, idMatches job (parseIntJS s false) = false := by
    intro job hj
    rw [h1]
    exact idMatches_nan job
  have hnan10 : ∀ job ∈ S, idMatches job (parseIntJS s true) = false := by
    intro job hj
    rw [h10]
    exact idMatches_nan job
  refine ⟨hnan, ?_, ?_, ?_, ?_⟩
  · exact getJobW_not_found S _ hnan
  · exact updateJobW_not_found S _ b hnan10
  · exact deleteJobW_not_found S _ hnan10
  · intro S₂ s₂ b₂
    exact ⟨getJobW_status S₂ _, updateJobW_status S₂ _ b₂, deleteJobW_status S₂ _,
      rfl, rfl⟩

/-- C7 witness: the identifier string `abc` is malformed and GET, PATCH and
DELETE all answer 404 on a concrete registry. -/
theorem malformed_id_notFound_witness :
    parseIntJS "abc" true = Value.nan
    ∧ parseIntJS "abc" false = Value.nan
    ∧ getJob [[("id", Value.num 1)]] "abc"
      = ([[("id", Value.num 1)]],
         ⟨404, Body.jobObj [("message", Value.str "Job not found")]⟩)
    ∧ updateJob [[("id", Value.num 1)]] "abc" [("x", Value.num 0)]
      = ([[("id", Value.num 1)]],
         ⟨404, Body.jobObj [("message", Value.str "Job not found")]⟩)
    ∧ deleteJob [[("id", Value.num 1)]] "abc"
      = ([[("id", Value.num 1)]],
         ⟨404, Body.jobObj [("message", Value.str "Job not found")]⟩) := by
  have h10 : parseIntJS "abc" true = Value.nan := by decide
  have h1 : parseIntJS "abc" false = Value.nan := by decide
  have hc := malformed_id_notFound [[("id", Value.num 1)]] "abc" [("x", Value.num 0)]
    h10 h1
  exact ⟨h10, h1, hc.2.1, hc.2.2.1, hc.2.2.2.1⟩

/-- C8: GET /jobs always succeeds with status 200 and sends the stored
sequence itself — same records, same order, nothing filtered or truncated. -/
theorem list_returns_sequence (S : List Obj) :
    getJobs S = (S, ⟨200, Body.jobList S⟩) := rfl

/-- C9: the two read operations never change the registry; GET /jobs and
GET /jobs/:id (for any identifier string, matching or not) return the
sequence they were given. -/
theorem read_handlers_preserve_sequence (S : List Obj) (s : String) :
    (getJobs S).1 = S ∧ (getJob S s).1 = S := by
  refine ⟨rfl, ?_⟩
  unfold getJob getJobW
  cases S.find? (fun job => idMatches job (parseIntJS s false)) <;> rfl

/-- C10: the spread in the PATCH handler also overwrites the `id` key: when
the body carries an id value `j`, the record stored back (and returned) has
id `j` — the stored identifier is not protected. -/
theorem update_overwrites_id (S : List Obj) (i : Int) (b : Obj) (p : Nat) (j : Value)
    (hp : p < S.length)
    (h1 : objGet (S.get ⟨p, hp⟩) "id" = some (Value.num i))
    (h2 : ∀ q (hq : q < p), objGet (S.get ⟨q, Nat.lt_trans hq hp⟩) "id"
      ≠ some (Value.num i))
    (hbody : objGet b "id" = some j) :
    ∃ r, updateJobW S (Value.num i) b = (S.set p r, ⟨200, Body.jobObj r⟩)
      ∧ objGet r "id" = some j := by
  have h1m : idMatches (S.get ⟨p, hp⟩) (Value.num i) = true :=
    (idMatches_num _ i).mpr h1
  have h2m : ∀ q (hq : q < p),
      idMatches (S.get ⟨q, Nat.lt_trans hq hp⟩) (Value.num i) = false := by
    intro q hq
    cases hIdM : idMatches (S.get ⟨q, Nat.lt_trans hq hp⟩) (Value.num i) with
    | false => rfl
    | true => exact absurd ((idMatches_num _ i).mp hIdM) (h2 q hq)
  refine ⟨mergeObj (S.get ⟨p, hp⟩) b, updateJobW_found S _ b p hp h1m h2m, ?_⟩
  rw [objGet_mergeObj, hbody]

/-- C10 witness: updating `{id:1,title:A}` with body `{id:7}` stores and
returns a record whose id is 7. -/
theorem update_overwrites_id_witness :
    (objGet (([[("id", Value.num 1), ("title", Value.str "A")]] : List Obj).get
        ⟨0, by decide⟩) "id" = some (Value.num 1))
    ∧ (objGet [("id", Value.num 7)] "id" = some (Value.num 7))
    ∧ updateJobW [[("id", Value.num 1), ("title", Value.str "A")]] (Value.num 1)
        [("id", Value.num 7)]
      = ([[("id", Value.num 7), ("title", Value.str "A")]],
         ⟨200, Body.jobObj [("id", Value.num 7), ("title", Value.str "A")]⟩)
    ∧ objGet [("id", Value.num 7), ("title", Value.str "A")] "id"
      = some (Value.num 7) := by
  obtain ⟨r, hr, hrid⟩ := update_overwrites_id
    [[("id", Value.num 1), ("title", Value.str "A")]] 1 [("id", Value.num 7)] 0
    (Value.num 7) (by decide) (by decide)
    (fun q hq => absurd hq (Nat.not_lt_zero q)) (by decide)
  have hrval : r = [("id", Value.num 7), ("title", Value.str "A")] := by
    have : updateJobW [[("id", Value.num 1), ("title", Value.str "A")]] (Value.num 1)
        [("id", Value.num 7)]
      = ([[("id", Value.num 7), ("title", Value.str "A")]],
         ⟨200, Body.jobObj [("id", Value.num 7), ("title", Value.str "A")]⟩) := by decide
    rw [this] at hr
    exact (Body.jobObj.inj (Resp.mk.inj (Prod.mk.injEq _ _ _ _ ▸ hr).2).2).symm
  refine ⟨by decide, by decide, ?_, by decide⟩
  rw [hr, hrval]
  decide

end JobTracker
